import Mathlib

/-!
Shallow embedding of the destination-driver core of the buildable-connections
repository: the BigQuery driver (schema-directed DML rendering, insert/update/
delete actions), the Xero driver (connect, test, multi-tenant action fan-out),
and the lifecycle proxy wrapped around a driver by each `getProxyDriver`
factory.  Remote effects (table lookups, metadata fetches, query execution,
HTTP calls) are modelled by explicit oracle arguments and by event traces, so
that ordering properties such as "fails before any network call" are visible
in the result.
-/

/-- Double-quote character as a string, used by the DML renderers. -/
def dQuote : String := "\""

/-- Single-quote character as a string, used by the JSON literal renderer. -/
def sQuote : String := String.mk [Char.ofNat 39]

/-- Embeds JavaScript `Array.prototype.join(",")`. -/
def joinComma : List String → String
  | [] => ""
  | [x] => x
  | x :: rest => x ++ "," ++ joinComma rest

/-- Whether the first character list starts the second one. -/
def charsStartWith : List Char → List Char → Bool
  | [], _ => true
  | _ :: _, [] => false
  | a :: as, b :: bs => a == b && charsStartWith as bs

/-- Whether the first character list occurs inside the second one. -/
def charsContain (pat : List Char) : List Char → Bool
  | [] => pat.isEmpty
  | b :: bs => charsStartWith pat (b :: bs) || charsContain pat bs

/-- Whether `pat` occurs as a substring of `s`. -/
def strContains (s pat : String) : Bool :=
  charsContain pat.data s.data

/-- Helper for `splitDot`: accumulates the current segment in reverse. -/
def splitDotAux : List Char → List Char → List String
  | [], acc => [String.mk acc.reverse]
  | c :: rest, acc =>
    if c == '.' then String.mk acc.reverse :: splitDotAux rest []
    else splitDotAux rest (c :: acc)

/-- Embeds JavaScript `s.split(".")` as used by `XeroDriver.performAction`. -/
def splitDot (s : String) : List String :=
  splitDotAux s.data []

/-- A JavaScript value as seen by the BigQuery DML renderer: a primitive
carrying its template-literal interpolation text (`toString` result) and its
`JSON.stringify` text, or an object carrying its `Object.entries` list in key
insertion order.  (`Object.entries` of a primitive is modelled as empty.) -/
inductive JSValue : Type where
  | prim (render : String) (json : String)
  | obj (fields : List (String × JSValue))

/-- Template-literal interpolation (`toString`) of a value. -/
def jsToString : JSValue → String
  | .prim r _ => r
  | .obj _ => "[object Object]"

mutual

/-- Embeds `JSON.stringify` over the modelled values. -/
def jsonStringify : JSValue → String
  | .prim _ j => j
  | .obj fs => "\x7b" ++ joinComma (jsonMembers fs) ++ "\x7d"

/-- Renders the members of an object for `jsonStringify`. -/
def jsonMembers : List (String × JSValue) → List String
  | [] => []
  | (k, v) :: rest => (dQuote ++ k ++ dQuote ++ ":" ++ jsonStringify v) :: jsonMembers rest

end

/-- A BigQuery field schema (`ITableFieldSchema`): a name, a declared type
string, and sub-field schemas for RECORD types. -/
inductive TableFieldSchema : Type where
  | mk (name : String) (type : String) (fields : List TableFieldSchema)

/-- Field name of a field schema. -/
def TableFieldSchema.name : TableFieldSchema → String
  | .mk n _ _ => n

/-- Declared type of a field schema. -/
def TableFieldSchema.type : TableFieldSchema → String
  | .mk _ t _ => t

/-- Sub-field schemas of a field schema. -/
def TableFieldSchema.fields : TableFieldSchema → List TableFieldSchema
  | .mk _ _ fs => fs

/-- A BigQuery table schema: the list of its field schemas. -/
structure TableSchema : Type where
  fields : List TableFieldSchema

mutual

/-- Embeds `BigQueryDriver.parseValue`: renders a value into a BigQuery
SQL-DML literal according to its declared field schema type.  A thrown
JavaScript error is modelled as `Except.error` carrying the message. -/
def parseValue : JSValue → TableFieldSchema → Except String String
  | v, .mk _ t sfields =>
    if t = "INTEGER" ∨ t = "FLOAT" ∨ t = "NUMERIC" ∨ t = "BIGNUMERIC" ∨ t = "BOOLEAN" then
      .ok (jsToString v)
    else if t = "STRING" ∨ t = "DATE" ∨ t = "TIME" ∨ t = "DATETIME" ∨ t = "GEOGRAPHY" then
      .ok (dQuote ++ jsToString v ++ dQuote)
    else if t = "TIMESTAMP" then
      .ok ("timestamp(" ++ dQuote ++ jsToString v ++ dQuote ++ ")")
    else if t = "JSON" then
      .ok ("JSON " ++ sQuote ++ jsonStringify v ++ sQuote)
    else if t = "BYTES" then
      .ok ("CAST(" ++ dQuote ++ jsToString v ++ dQuote ++ " as BYTES)")
    else if t = "RECORD" then
      match v with
      | .prim _ _ => .ok "STRUCT()"
      | .obj fs =>
        match parseEntries fs sfields with
        | .error e => .error e
        | .ok rs => .ok ("STRUCT(" ++ joinComma rs ++ ")")
    else .error ("Unknown type: " ++ t)

/-- Embeds the `Object.entries(value).map(...)` loop of the RECORD branch of
`parseValue`: each sub-value is rendered by the sub-field schema found by
name; a missing sub-field schema is the JavaScript `undefined` whose later
field access raises a `TypeError` (the `.map` aborts at the first throw). -/
def parseEntries : List (String × JSValue) → List TableFieldSchema → Except String (List String)
  | [], _ => .ok []
  | (k, v) :: rest, fields =>
    match fields.find? (fun f => f.name == k) with
    | none => .error "TypeError: Cannot read properties of undefined (reading type)"
    | some sub =>
      match parseValue v sub with
      | .error e => .error e
      | .ok r =>
        match parseEntries rest fields with
        | .error e => .error e
        | .ok rs => .ok (r :: rs)

end

/-- The `set` argument of `updateData`, as accepted by
`BigQueryDriver.extractChangeset`: a raw string, an array of pre-formatted
assignment strings, or a column-to-value mapping in key insertion order. -/
inductive SetArg : Type where
  | str (s : String)
  | arr (xs : List String)
  | map (entries : List (String × JSValue))

/-- Embeds the `Object.entries(set).map(...)` loop of `extractChangeset`:
each column is looked up in the fetched schema (throwing the schema-altering
error when absent) and its value rendered by `parseValue`; the `.map` aborts
at the first thrown error. -/
def changesetEntries : List (String × JSValue) → TableSchema → Except String (List String)
  | [], _ => .ok []
  | (k, v) :: rest, schema =>
    match schema.fields.find? (fun f => f.name == k) with
    | none => .error "Schema-altering update"
    | some keySchema =>
      match parseValue v keySchema with
      | .error e => .error e
      | .ok pv =>
        match changesetEntries rest schema with
        | .error e => .error e
        | .ok qs => .ok ((k ++ "=" ++ pv) :: qs)

/-- Embeds `BigQueryDriver.extractChangeset`. -/
def extractChangeset (set : SetArg) (schema : TableSchema) : Except String String :=
  match set with
  | .str s => .ok s
  | .arr xs => .ok (joinComma xs)
  | .map entries =>
    match changesetEntries entries schema with
    | .error e => .error e
    | .ok qs => .ok (joinComma qs)

/-- Remote interactions and log lines performed by a BigQuery driver action,
recorded in order. -/
inductive BQEvent : Type where
  | tableGet
  | tableInsert
  | getMetadata
  | runQuery (q : String)
  | log (msg : String)
deriving DecidableEq

/-- The structured result shape returned by `testConnection`. -/
structure TestConnection : Type where
  success : Bool
  message : String
deriving DecidableEq

/-- Embeds `BigQueryDriver.testConnection`.  The client handle is `none` when
disconnected.  `queryRes` is the outcome of the fixed sample query against the
public dataset: `Except.error` for a rejected promise (which the source does
not catch), `Except.ok none` for a falsy resolved response, `Except.ok (some ())`
for a truthy one. -/
def bqTestConnection (client : Option Unit) (queryRes : Except String (Option Unit)) :
    Except String TestConnection :=
  match client with
  | none => .error "Connection to BigQuery not established"
  | some _ =>
    match queryRes with
    | .error e => .error e
    | .ok none => .ok ⟨false, "Could not establish connection to BigQuery"⟩
    | .ok (some _) => .ok ⟨true, "Connection established successfully"⟩

/-- Embeds `BigQueryDriver.insertData`.  `tableGet` is the outcome of the
`bqTable.get()` existence check and `insertRes` the outcome of
`bqTable.insert(data, options)`; a returned `none` models the JavaScript
`null` result. -/
def insertData (client : Option Unit) (projectId dataset table : String)
    (tableGet : Except String Unit) (insertRes : Except String String) :
    List BQEvent × Except String (Option String) :=
  match client with
  | none => ([], .error "Connection to BigQuery not established")
  | some _ =>
    match tableGet with
    | .error _ =>
      ([.tableGet, .log ("table `" ++ projectId ++ "." ++ dataset ++ "." ++ table ++ "` not found")],
       .ok none)
    | .ok _ =>
      match insertRes with
      | .error _ => ([.tableGet, .tableInsert, .log "Schema-altering action"], .ok none)
      | .ok r => ([.tableGet, .tableInsert], .ok (some r))

/-- Embeds `BigQueryDriver.updateData`.  `filters` is `none` for the
JavaScript `undefined`; `schema` is the table schema the metadata fetch would
return.  The successful result carries the composed UPDATE statement. -/
def updateData (client : Option Unit) (projectId dataset table : String)
    (filters : Option String) (set : SetArg) (schema : TableSchema) :
    List BQEvent × Except String String :=
  match client with
  | none => ([], .error "Connection to BigQuery not established")
  | some _ =>
    match filters with
    | none => ([], .error "BigQuery UPDATE must have a WHERE clause")
    | some f =>
      if f = "" then ([], .error "BigQuery UPDATE must have a WHERE clause")
      else
        match extractChangeset set schema with
        | .error e => ([.getMetadata], .error e)
        | .ok changes =>
          let q := "UPDATE `" ++ projectId ++ "." ++ dataset ++ "." ++ table ++ "`\n      SET " ++
            changes ++ "\n      WHERE " ++ f ++ "\n    "
          ([.getMetadata, .runQuery q], .ok q)

/-- Embeds `BigQueryDriver.deleteData`. -/
def deleteData (client : Option Unit) (projectId dataset table : String)
    (filters : Option String) : List BQEvent × Except String Unit :=
  match client with
  | none => ([], .error "Connection to BigQuery not established")
  | some _ =>
    match filters with
    | none => ([], .error "BigQuery DELETE must have a WHERE clause")
    | some f =>
      if f = "" then ([], .error "BigQuery DELETE must have a WHERE clause")
      else
        ([.runQuery ("DELETE FROM `" ++ projectId ++ "." ++ dataset ++ "." ++ table ++
          "`\n        WHERE " ++ f ++ "\n    ")], .ok ())

/-- Lifecycle steps taken by the proxy wrapper around a driver action. -/
inductive PEvent : Type where
  | connect
  | invoke (payload : String)
  | disconnect
  | log (err : String)
deriving DecidableEq

/-- Embeds the wrapper closure returned by the `get` trap of `getProxyDriver`
for a driver method: try `connect`, invoke the underlying action with the
caller payload, `disconnect`, and return the result; on a throw, log once and
re-throw.  `connectRes` is the outcome of `driver.connect()` and `action` the
underlying driver method. -/
def proxyCall {α : Type} (connectRes : Except String Unit)
    (action : String → Except String α) (payload : String) :
    List PEvent × Except String α :=
  match connectRes with
  | .error e => ([.connect, .log e], .error e)
  | .ok _ =>
    match action payload with
    | .error e => ([.connect, .invoke payload, .log e], .error e)
    | .ok v => ([.connect, .invoke payload, .disconnect], .ok v)

/-- OAuth2 portion of the Xero connect configuration: redirect URI, scopes,
and the pre-resolved token set (modelled by its access token). -/
structure XeroOAuth2 : Type where
  redirectUri : String
  scopes : List String
  accessToken : String

/-- The `config` argument of `XeroDriver.connect`; absent JavaScript fields
are `none`. -/
structure XeroConfig : Type where
  XERO_CLIENT_ID : Option String
  XERO_CLIENT_SECRET : Option String
  oauth2 : Option XeroOAuth2

/-- Steps taken by `XeroDriver.connect`, in order. -/
inductive XeroEvent : Type where
  | newClient (clientId clientSecret redirectUri : String)
  | setTokenSet
  | getConnections (bearer : String)
deriving DecidableEq

/-- Embeds `XeroDriver.connect`: reads `config.XERO_CLIENT_ID` (a `TypeError`
when `config` is `undefined`), builds the client from override-first
credentials and `config.oauth2` (a `TypeError` when `oauth2` is absent),
installs the token set, then fetches `https://api.xero.com/connections`;
`connections` models the tenant ids of that response.  The successful result
is the stored `tenantIds`. -/
def xeroConnect (ctorClientId ctorClientSecret : String) (config : Option XeroConfig)
    (connections : List String) : List XeroEvent × Except String (List String) :=
  match config with
  | none =>
    ([], .error "TypeError: Cannot read properties of undefined (reading XERO_CLIENT_ID)")
  | some cfg =>
    match cfg.oauth2 with
    | none =>
      ([], .error "TypeError: Cannot read properties of undefined (reading redirectUri)")
    | some o =>
      ([.newClient (cfg.XERO_CLIENT_ID.getD ctorClientId)
          (cfg.XERO_CLIENT_SECRET.getD ctorClientSecret) o.redirectUri,
        .setTokenSet, .getConnections o.accessToken],
       .ok connections)

/-- Embeds `XeroDriver.testConnection`: the whole probe sits in a
`try`/`catch`, so a null client (whose property access throws) and a failing
`getAccounts` probe both yield the structured failure result. -/
def xeroTestConnection (client : Option Unit) (probe : Except String Unit) :
    Except String TestConnection :=
  match client with
  | none => .ok ⟨false, "Could not establish connection to Xero"⟩
  | some _ =>
    match probe with
    | .error _ => .ok ⟨false, "Could not establish connection to Xero"⟩
    | .ok _ => .ok ⟨true, "Connection established successfully"⟩

/-- An accounting-API method as `performAction` sees it: the parameter names
introspected from its textual signature, and its behavior on a positional
argument list (`Except.ok` carries the response body, `Except.error` the
error's response body). -/
structure AccountingMethod : Type where
  params : List String
  call : List (Option String) → Except String String

/-- The Xero client surface used by `performAction`: the accounting API's
methods by name (`none` when the property is not a function). -/
structure XeroClientM : Type where
  accounting : String → Option AccountingMethod

/-- Embeds the argument reconstruction of `performAction`: each introspected
parameter name is replaced by the tenant id when it is `xeroTenantId` and by
the named `params` entry otherwise (`none` models `undefined`). -/
def xeroBuildArgs (methodParams : List String) (params : String → Option String)
    (tenantId : String) : List (Option String) :=
  methodParams.map fun p => if p = "xeroTenantId" then some tenantId else params p

/-- The message of the `TypeError` raised when `performAction` reads
`accountingApi` off a null client. -/
def xeroNullClientMsg : String :=
  "TypeError: Cannot read properties of null (reading accountingApi)"

/-- Embeds the `for (const tenantId of this.tenantIds)` loop of
`performAction`: returns the per-tenant calls made (tenant id and argument
list) and the response entries stored (success body, or the caught error's
response body). -/
def xeroTenantLoop (m : AccountingMethod) (params : String → Option String) :
    List String → List (String × List (Option String)) × List (String × String)
  | [] => ([], [])
  | t :: rest =>
    let args := xeroBuildArgs m.params params t
    let entry :=
      match m.call args with
      | .ok body => (t, body)
      | .error resp => (t, resp)
    let r := xeroTenantLoop m params rest
    ((t, args) :: r.1, entry :: r.2)

/-- Embeds `XeroDriver.performAction`: splits `prop` on dots into API and
method and dispatches on the API name.  Any API other than `accounting` hits
the `default` switch case and throws its not-found error without the client
ever being read; on the `accounting` branch the first step reads
`this.client.accountingApi` (the `TypeError` when the client is null), then
the method is located and the call fanned out over every discovered tenant.
The first component records the per-tenant calls actually made. -/
def performAction (client : Option XeroClientM) (tenantIds : List String)
    (prop : String) (params : String → Option String) :
    List (String × List (Option String)) × Except String (List (String × String)) :=
  let parts := splitDot prop
  match parts.headD "" with
  | "accounting" =>
    match client with
    | none => ([], .error xeroNullClientMsg)
    | some c =>
      match parts.get? 1 with
      | none => ([], .error ("Method " ++ prop ++ "() for Xero not found"))
      | some method =>
        match c.accounting method with
        | none => ([], .error ("Method " ++ prop ++ "() for Xero not found"))
        | some m =>
          let r := xeroTenantLoop m params tenantIds
          (r.1, .ok r.2)
  | api => ([], .error ("API " ++ api ++ " for Xero not found"))

/-- The per-tenant entry `performAction` stores for a tenant: the success
body when the call succeeds, the captured error response body when it throws. -/
def outcomeEntry (m : AccountingMethod) (params : String → Option String)
    (t : String) : String :=
  match m.call (xeroBuildArgs m.params params t) with
  | .ok body => body
  | .error resp => resp

/-- The BYTES rendering exactly as the specification document words it
(`CAST("value" AS BYTES)` with an upper-case `AS`), for comparison with the
source's rendering. -/
def specBytesForm (v : String) : String :=
  "CAST(" ++ dQuote ++ v ++ dQuote ++ " AS BYTES)"

/-- The RECORD rendering exactly as the specification document words it
(`STRUCT(field=value, ...)` with each component carrying the sub-field name),
for comparison with the source's rendering. -/
def specStructForm (entries : List (String × String)) : String :=
  "STRUCT(" ++ joinComma (entries.map fun kr => kr.1 ++ "=" ++ kr.2) ++ ")"

/-- Concrete accounting method for the fan-out witness: throws for tenant T1,
succeeds for every other tenant. -/
def xeroDemoMethod : AccountingMethod :=
  ⟨["xeroTenantId"],
   fun args => if args == [some "T1"] then .error "errbody" else .ok "okbody"⟩

/-- Concrete Xero client surface exposing only `getAccounts`. -/
def xeroDemoClient : XeroClientM :=
  ⟨fun s => if s == "getAccounts" then some xeroDemoMethod else none⟩

/-- Helper: when every entry of a record value has a sub-field schema found
by name and its recursive rendering succeeds (paired positionally with
`renders`), the RECORD entry loop returns exactly those renderings in entry
order. -/
theorem parseEntries_forall2 (fields : List TableFieldSchema)
    (entries : List (String × JSValue)) (renders : List String)
    (h : List.Forall₂ (fun kv r => ∃ sub,
        fields.find? (fun f => f.name == kv.1) = some sub ∧
        parseValue kv.2 sub = Except.ok r) entries renders) :
    parseEntries entries fields = Except.ok renders := by
  induction h with
  | nil => simp [parseEntries]
  | cons hpair hrest ih =>
    obtain ⟨sub, hfind, hpv⟩ := hpair
    simp [parseEntries, hfind, hpv, ih]

/-- Helper: the Xero per-tenant loop makes one call per tenant in order and
stores one entry per tenant, the entry being the success body or the caught
error response body. -/
theorem xeroTenantLoop_spec (m : AccountingMethod) (params : String → Option String)
    (ts : List String) :
    xeroTenantLoop m params ts =
      (ts.map fun t => (t, xeroBuildArgs m.params params t),
       ts.map fun t => (t, outcomeEntry m params t)) := by
  induction ts with
  | nil => rfl
  | cons t rest ih =>
    simp only [xeroTenantLoop, ih, List.map_cons, outcomeEntry]
    cases m.call (xeroBuildArgs m.params params t) <;> simp

/-- Helper: a changeset mapping containing a column absent from the schema
always fails with some error. -/
theorem changesetEntries_member_missing (schema : TableSchema) :
    ∀ (entries : List (String × JSValue)) (k : String) (v : JSValue),
      (k, v) ∈ entries →
      schema.fields.find? (fun f => f.name == k) = none →
      ∃ e, changesetEntries entries schema = Except.error e := by
  intro entries
  induction entries with
  | nil => intro k v h; cases h
  | cons kv rest ih =>
    intro k v hmem hmiss
    obtain ⟨k0, v0⟩ := kv
    rcases List.mem_cons.mp hmem with heq | hmem2
    · obtain ⟨h1, h2⟩ := Prod.mk.injEq .. ▸ heq
      subst h1
      exact ⟨"Schema-altering update", by simp [changesetEntries, hmiss]⟩
    · cases hf : schema.fields.find? (fun f => f.name == k0) with
      | none => exact ⟨"Schema-altering update", by simp [changesetEntries, hf]⟩
      | some sub =>
        cases hp : parseValue v0 sub with
        | error e => exact ⟨e, by simp [changesetEntries, hf, hp]⟩
        | ok r =>
          obtain ⟨e, he⟩ := ih k v hmem2 hmiss
          exact ⟨e, by simp [changesetEntries, hf, hp, he]⟩

/-- Helper: when every entry before the missing column renders successfully,
the changeset loop fails with exactly the schema-altering error. -/
theorem changesetEntries_first_missing (schema : TableSchema) :
    ∀ (pre : List (String × JSValue)) (k : String) (v : JSValue)
      (post : List (String × JSValue)),
      (∀ kv ∈ pre, ∃ sub r,
        schema.fields.find? (fun f => f.name == kv.1) = some sub ∧
        parseValue kv.2 sub = Except.ok r) →
      schema.fields.find? (fun f => f.name == k) = none →
      changesetEntries (pre ++ (k, v) :: post) schema =
        Except.error "Schema-altering update" := by
  intro pre
  induction pre with
  | nil => intro k v post _ hmiss; simp [changesetEntries, hmiss]
  | cons kv rest ih =>
    intro k v post hok hmiss
    obtain ⟨sub, r, hf, hp⟩ := hok kv (by simp)
    simp [changesetEntries, hf, hp,
      ih k v post (fun kv2 h2 => hok kv2 (by simp [h2])) hmiss]

/-- C1 (counterexample): the source renders a BYTES value with a lower-case
`as` keyword, `CAST("x" as BYTES)`, which differs from the documented literal
form `CAST("x" AS BYTES)`. -/
theorem C1_bytes_case_counterexample :
    parseValue (JSValue.prim "x" (dQuote ++ "x" ++ dQuote)) (.mk "f" "BYTES" []) =
      .ok ("CAST(" ++ dQuote ++ "x" ++ dQuote ++ " as BYTES)") ∧
    ("CAST(" ++ dQuote ++ "x" ++ dQuote ++ " as BYTES)") ≠ specBytesForm "x" := by
  constructor
  · simp [parseValue, TableFieldSchema.type, jsToString]
  · decide

/-- C1 (amended): for every value, `parseValue` renders the supported scalar
types in their documented literal forms — numeric and boolean types
interpolated unquoted, string-like types double-quoted, TIMESTAMP wrapped as
`timestamp("...")`, JSON as a `JSON '...'` literal around the JSON
serialization, BYTES as `CAST("..." as BYTES)` (lower-case `as`) — and any
type outside the supported set fails with the explicit unknown-type error. -/
theorem C1_parseValue_literal_forms (v : JSValue) (n t : String)
    (fs : List TableFieldSchema) :
    ((t = "INTEGER" ∨ t = "FLOAT" ∨ t = "NUMERIC" ∨ t = "BIGNUMERIC" ∨ t = "BOOLEAN") →
      parseValue v (.mk n t fs) = .ok (jsToString v)) ∧
    ((t = "STRING" ∨ t = "DATE" ∨ t = "TIME" ∨ t = "DATETIME" ∨ t = "GEOGRAPHY") →
      parseValue v (.mk n t fs) = .ok (dQuote ++ jsToString v ++ dQuote)) ∧
    (t = "TIMESTAMP" →
      parseValue v (.mk n t fs) = .ok ("timestamp(" ++ dQuote ++ jsToString v ++ dQuote ++ ")")) ∧
    (t = "JSON" →
      parseValue v (.mk n t fs) = .ok ("JSON " ++ sQuote ++ jsonStringify v ++ sQuote)) ∧
    (t = "BYTES" →
      parseValue v (.mk n t fs) = .ok ("CAST(" ++ dQuote ++ jsToString v ++ dQuote ++ " as BYTES)")) ∧
    (t ∉ ["INTEGER", "FLOAT", "NUMERIC", "BIGNUMERIC", "BOOLEAN", "STRING", "DATE",
        "TIME", "DATETIME", "GEOGRAPHY", "TIMESTAMP", "JSON", "BYTES", "RECORD"] →
      parseValue v (.mk n t fs) = .error ("Unknown type: " ++ t)) := by
  refine ⟨?_, ?_, ?_, ?_, ?_, ?_⟩
  · rintro (rfl | rfl | rfl | rfl | rfl) <;> cases v <;> simp [parseValue]
  · rintro (rfl | rfl | rfl | rfl | rfl) <;> cases v <;> simp [parseValue]
  · rintro rfl; cases v <;> simp [parseValue]
  · rintro rfl; cases v <;> simp [parseValue]
  · rintro rfl; cases v <;> simp [parseValue]
  · intro h
    simp only [List.mem_cons, List.mem_singleton, not_or] at h
    obtain ⟨h1, h2, h3, h4, h5, h6, h7, h8, h9, h10, h11, h12, h13, h14⟩ := h
    cases v <;>
      simp [parseValue, h1, h2, h3, h4, h5, h6, h7, h8, h9, h10, h11, h12, h13, h14]

/-- C1 (witness): the literal forms at concrete inputs of each kind. -/
theorem C1_parseValue_literal_forms_witness :
    parseValue (JSValue.prim "42" "42") (.mk "f" "INTEGER" []) = .ok (jsToString (JSValue.prim "42" "42")) ∧
    parseValue (JSValue.prim "x" (dQuote ++ "x" ++ dQuote)) (.mk "f" "STRING" []) =
      .ok (dQuote ++ jsToString (JSValue.prim "x" (dQuote ++ "x" ++ dQuote)) ++ dQuote) ∧
    parseValue (JSValue.prim "2023-01-01" "j") (.mk "f" "TIMESTAMP" []) =
      .ok ("timestamp(" ++ dQuote ++ jsToString (JSValue.prim "2023-01-01" "j") ++ dQuote ++ ")") ∧
    parseValue (JSValue.prim "1" "1") (.mk "f" "JSON" []) =
      .ok ("JSON " ++ sQuote ++ jsonStringify (JSValue.prim "1" "1") ++ sQuote) ∧
    parseValue (JSValue.prim "x" "j") (.mk "f" "BYTES" []) =
      .ok ("CAST(" ++ dQuote ++ jsToString (JSValue.prim "x" "j") ++ dQuote ++ " as BYTES)") ∧
    parseValue (JSValue.prim "x" "j") (.mk "f" "FANCY" []) =
      .error ("Unknown type: " ++ "FANCY") := by
  refine ⟨?_, ?_, ?_, ?_, ?_, ?_⟩
  · exact (C1_parseValue_literal_forms (JSValue.prim "42" "42") "f" "INTEGER" []).1 (Or.inl rfl)
  · exact (C1_parseValue_literal_forms (JSValue.prim "x" (dQuote ++ "x" ++ dQuote)) "f"
      "STRING" []).2.1 (Or.inl rfl)
  · exact (C1_parseValue_literal_forms (JSValue.prim "2023-01-01" "j") "f"
      "TIMESTAMP" []).2.2.1 rfl
  · exact (C1_parseValue_literal_forms (JSValue.prim "1" "1") "f" "JSON" []).2.2.2.1 rfl
  · exact (C1_parseValue_literal_forms (JSValue.prim "x" "j") "f" "BYTES" []).2.2.2.2.1 rfl
  · exact (C1_parseValue_literal_forms (JSValue.prim "x" "j") "f" "FANCY" []).2.2.2.2.2
      (by decide)

/-- C2 (counterexample): at a RECORD value with one INTEGER sub-field the
source renders `STRUCT(5)` — the components carry no `field=` name prefix,
unlike the documented `STRUCT(field=value, ...)` shape, which would read
`STRUCT(a=5)` here. -/
theorem C2_record_shape_counterexample :
    parseValue (JSValue.obj [("a", JSValue.prim "5" "5")])
      (.mk "r" "RECORD" [.mk "a" "INTEGER" []]) = .ok "STRUCT(5)" ∧
    specStructForm [("a", "5")] = "STRUCT(a=5)" ∧
    ("STRUCT(5)" : String) ≠ "STRUCT(a=5)" := by
  refine ⟨?_, by decide, by decide⟩
  simp [parseValue, parseEntries, TableFieldSchema.name, TableFieldSchema.type,
    TableFieldSchema.fields, jsToString, joinComma]

/-- C2 (amended): for a RECORD value each of whose entries has a sub-field
schema found by name with a successful recursive rendering, `parseValue`
renders `STRUCT(value, ...)` — the comma-joined recursive renderings of the
sub-values, without name prefixes, in the order of the input value's own
keys. -/
theorem C2_record_struct_order (n : String) (fields : List TableFieldSchema)
    (entries : List (String × JSValue)) (renders : List String)
    (h : List.Forall₂ (fun kv r => ∃ sub,
        fields.find? (fun f => f.name == kv.1) = some sub ∧
        parseValue kv.2 sub = Except.ok r) entries renders) :
    parseValue (JSValue.obj entries) (.mk n "RECORD" fields) =
      .ok ("STRUCT(" ++ joinComma renders ++ ")") := by
  have hp := parseEntries_forall2 fields entries renders h
  simp [parseValue, TableFieldSchema.type, TableFieldSchema.fields, hp]

/-- C2 (witness): a mixed-type record whose input key order differs from the
declared schema order renders in input key order. -/
theorem C2_record_struct_order_witness :
    parseValue (JSValue.obj [("s", JSValue.prim "x" "jx"), ("i", JSValue.prim "7" "7")])
      (.mk "r" "RECORD" [.mk "i" "INTEGER" [], .mk "s" "STRING" []]) =
      .ok ("STRUCT(" ++ joinComma [dQuote ++ "x" ++ dQuote, "7"] ++ ")") := by
  apply C2_record_struct_order
  refine List.Forall₂.cons ⟨.mk "s" "STRING" [], ?_, ?_⟩
    (List.Forall₂.cons ⟨.mk "i" "INTEGER" [], ?_, ?_⟩ List.Forall₂.nil)
  · rfl
  · simp [parseValue, TableFieldSchema.type, jsToString]
  · rfl
  · simp [parseValue, TableFieldSchema.type, jsToString]

/-- C3: through the lifecycle proxy wrapper, a successful action runs
connect, then the action on the caller payload, then disconnect, and returns
the action's value unchanged; a failing action has its error logged once and
re-thrown unmodified, with no disconnect step. -/
theorem C3_proxy_lifecycle {α : Type} (action : String → Except String α)
    (payload : String) :
    (∀ v, action payload = .ok v →
      proxyCall (Except.ok ()) action payload =
        ([.connect, .invoke payload, .disconnect], .ok v)) ∧
    (∀ e, action payload = .error e →
      proxyCall (Except.ok ()) action payload =
        ([.connect, .invoke payload, .log e], .error e) ∧
      PEvent.disconnect ∉ (proxyCall (Except.ok ()) action payload).1) := by
  constructor
  · intro v hv; simp [proxyCall, hv]
  · intro e he
    constructor
    · simp [proxyCall, he]
    · simp [proxyCall, he]

/-- C3 (witness): the two proxy paths at concrete actions. -/
theorem C3_proxy_lifecycle_witness :
    proxyCall (Except.ok ()) (fun p => Except.ok (p ++ "!")) "x" =
      ([.connect, .invoke "x", .disconnect], .ok "x!") ∧
    proxyCall (Except.ok ()) (fun _ => (Except.error "boom" : Except String String)) "x" =
      ([.connect, .invoke "x", .log "boom"], .error "boom") :=
  ⟨(C3_proxy_lifecycle (fun p => Except.ok (p ++ "!")) "x").1 _ rfl,
   ((C3_proxy_lifecycle (fun _ => (Except.error "boom" : Except String String)) "x").2
     "boom" rfl).1⟩

/-- Helper: mapping a key to a keyed pair and projecting the key back is the
identity. -/
theorem map_fst_keyed_pair {β : Type} (f : String → β) (ts : List String) :
    (ts.map fun t => (t, f t)).map Prod.fst = ts := by
  induction ts with
  | nil => rfl
  | cons t rest ih => simp [ih]

/-- C4: on a connected Xero driver, `performAction` on a resolvable
`accounting.method` name invokes the method once per discovered tenant in
discovery order and returns one entry per tenant; a tenant whose call throws
contributes its captured error response body, every other tenant its success
body, and no failure aborts the remaining tenants. -/
theorem C4_xero_fanout (c : XeroClientM) (ts : List String) (prop method : String)
    (m : AccountingMethod) (params : String → Option String)
    (hsplit : splitDot prop = ["accounting", method])
    (hm : c.accounting method = some m) :
    (performAction (some c) ts prop params).1.map Prod.fst = ts ∧
    (performAction (some c) ts prop params).2 =
      .ok (ts.map fun t => (t, outcomeEntry m params t)) ∧
    (∀ t b, m.call (xeroBuildArgs m.params params t) = .ok b →
      outcomeEntry m params t = b) ∧
    (∀ t e, m.call (xeroBuildArgs m.params params t) = .error e →
      outcomeEntry m params t = e) := by
  have hperf : performAction (some c) ts prop params =
      (ts.map fun t => (t, xeroBuildArgs m.params params t),
       .ok (ts.map fun t => (t, outcomeEntry m params t))) := by
    simp [performAction, hsplit, hm, xeroTenantLoop_spec]
  refine ⟨?_, ?_, ?_, ?_⟩
  · rw [hperf]; exact map_fst_keyed_pair _ ts
  · rw [hperf]
  · intro t b hb; simp [outcomeEntry, hb]
  · intro t e he; simp [outcomeEntry, he]

/-- C4 (witness): with tenants T1 and T2 where T1's call throws, the result
maps T1 to the captured error body and T2 to the success body. -/
theorem C4_xero_fanout_witness :
    (performAction (some xeroDemoClient) ["T1", "T2"] "accounting.getAccounts"
      fun _ => none).2 = .ok [("T1", "errbody"), ("T2", "okbody")] := by
  have h := C4_xero_fanout xeroDemoClient ["T1", "T2"] "accounting.getAccounts"
    "getAccounts" xeroDemoMethod (fun _ => none) (by decide) rfl
  rw [h.2.1]
  rfl

/-- C5 (counterexample): `XeroDriver.performAction` has no connection guard —
with a null client it throws the `TypeError` raised by reading
`accountingApi` off `null`, whose message does not mention "not
established". -/
theorem C5_xero_guard_counterexample :
    performAction none ["T1"] "accounting.getAccounts" (fun _ => none) =
      ([], .error xeroNullClientMsg) ∧
    strContains xeroNullClientMsg "not established" = false := by
  exact ⟨rfl, by decide⟩

/-- C5 (amended): every BigQuery domain action invoked with a null client
fails immediately — before any remote call, as the empty event trace shows —
with the explicit "Connection to BigQuery not established" error; Xero's
`performAction` with a null client also fails immediately with an empty
trace, but never with a "not established" message: an `accounting` action
throws the `TypeError` from reading `accountingApi` off the null client,
while any other API name throws its API-not-found error before the client is
even read.  No action is a silent no-op. -/
theorem C5_not_connected_behavior (p d t : String) (filters : Option String)
    (set : SetArg) (schema : TableSchema) (tg : Except String Unit)
    (ir : Except String String) (ts : List String) (prop : String)
    (params : String → Option String) :
    insertData none p d t tg ir = ([], .error "Connection to BigQuery not established") ∧
    updateData none p d t filters set schema =
      ([], .error "Connection to BigQuery not established") ∧
    deleteData none p d t filters = ([], .error "Connection to BigQuery not established") ∧
    strContains "Connection to BigQuery not established" "not established" = true ∧
    (∀ rest, splitDot prop = "accounting" :: rest →
      performAction none ts prop params = ([], .error xeroNullClientMsg)) ∧
    (∀ api rest, splitDot prop = api :: rest → api ≠ "accounting" →
      performAction none ts prop params =
        ([], .error ("API " ++ api ++ " for Xero not found"))) ∧
    strContains xeroNullClientMsg "not established" = false := by
  refine ⟨rfl, rfl, rfl, by decide, ?_, ?_, by decide⟩
  · intro rest hsplit
    simp [performAction, hsplit]
  · intro api rest hsplit hapi
    simp [performAction, hsplit, hapi]

/-- C5 (witness): the two null-client failure shapes at concrete actions —
an accounting action and a non-accounting one. -/
theorem C5_not_connected_behavior_witness :
    performAction none ["T1"] "accounting.getAccounts" (fun _ => none) =
      ([], .error xeroNullClientMsg) ∧
    performAction none ["T1"] "banking.getStatements" (fun _ => none) =
      ([], .error ("API " ++ "banking" ++ " for Xero not found")) := by
  constructor
  · exact (C5_not_connected_behavior "p" "d" "t" none (.str "") ⟨[]⟩ (.ok ()) (.ok "")
      ["T1"] "accounting.getAccounts" (fun _ => none)).2.2.2.2.1 ["getAccounts"] (by decide)
  · exact (C5_not_connected_behavior "p" "d" "t" none (.str "") ⟨[]⟩ (.ok ()) (.ok "")
      ["T1"] "banking.getStatements" (fun _ => none)).2.2.2.2.2.1 "banking" ["getStatements"]
      (by decide) (by decide)

/-- C6: on a connected BigQuery driver, `updateData` and `deleteData` with an
undefined or empty `filters` argument throw the explicit missing-WHERE-clause
error with an empty event trace — before the schema fetch or any query. -/
theorem C6_where_clause_guard (p d t : String) (set : SetArg) (schema : TableSchema) :
    updateData (some ()) p d t none set schema =
      ([], .error "BigQuery UPDATE must have a WHERE clause") ∧
    updateData (some ()) p d t (some "") set schema =
      ([], .error "BigQuery UPDATE must have a WHERE clause") ∧
    deleteData (some ()) p d t none = ([], .error "BigQuery DELETE must have a WHERE clause") ∧
    deleteData (some ()) p d t (some "") =
      ([], .error "BigQuery DELETE must have a WHERE clause") := by
  refine ⟨rfl, ?_, rfl, ?_⟩ <;> simp [updateData, deleteData]

/-- C7 (counterexample): a `set` mapping containing the key `b` absent from
the fetched schema can still fail with a different error — here the earlier
entry `a`, whose declared type `WEIRD` is unsupported, throws the
unknown-type error first, so the operation does not fail with the
schema-altering error. -/
theorem C7_preempted_error_counterexample :
    updateData (some ()) "p" "d" "t" (some "id=1")
      (.map [("a", JSValue.prim "1" "1"), ("b", JSValue.prim "2" "2")])
      ⟨[.mk "a" "WEIRD" []]⟩ =
      ([BQEvent.getMetadata], .error ("Unknown type: " ++ "WEIRD")) ∧
    ("Unknown type: " ++ "WEIRD") ≠ "Schema-altering update" := by
  constructor
  · simp [updateData, extractChangeset, changesetEntries, parseValue,
      TableFieldSchema.name]
  · decide

/-- C7 (amended): on a connected BigQuery driver with non-empty filters, an
update whose `set` mapping contains a column absent from the fetched schema
always fails after only the metadata fetch — no UPDATE query is issued — and
when every entry before the missing column renders successfully the error is
exactly the explicit "Schema-altering update" error (an earlier entry whose
value fails to render preempts it with its own rendering error). -/
theorem C7_schema_altering_guard (p d t f : String) (hf : f ≠ "")
    (pre post : List (String × JSValue)) (k : String) (v : JSValue)
    (schema : TableSchema)
    (hmiss : schema.fields.find? (fun fd => fd.name == k) = none) :
    (∃ e, updateData (some ()) p d t (some f) (.map (pre ++ (k, v) :: post)) schema =
      ([BQEvent.getMetadata], .error e)) ∧
    ((∀ kv ∈ pre, ∃ sub r,
        schema.fields.find? (fun fd => fd.name == kv.1) = some sub ∧
        parseValue kv.2 sub = Except.ok r) →
      updateData (some ()) p d t (some f) (.map (pre ++ (k, v) :: post)) schema =
        ([BQEvent.getMetadata], .error "Schema-altering update")) := by
  constructor
  · obtain ⟨e, he⟩ := changesetEntries_member_missing schema (pre ++ (k, v) :: post) k v
      (by simp) hmiss
    exact ⟨e, by simp [updateData, hf, extractChangeset, he]⟩
  · intro hpre
    have hc := changesetEntries_first_missing schema pre k v post hpre hmiss
    simp [updateData, hf, extractChangeset, hc]

/-- C7 (witness): a two-entry mapping whose first column is declared INTEGER
and whose second column is absent fails with the schema-altering error and no
query event. -/
theorem C7_schema_altering_guard_witness :
    updateData (some ()) "p" "d" "t" (some "id=1")
      (.map [("a", JSValue.prim "1" "1"), ("b", JSValue.prim "2" "2")])
      ⟨[.mk "a" "INTEGER" []]⟩ =
      ([BQEvent.getMetadata], .error "Schema-altering update") := by
  have h := (C7_schema_altering_guard "p" "d" "t" "id=1" (by decide)
    [("a", JSValue.prim "1" "1")] [] "b" (JSValue.prim "2" "2")
    ⟨[.mk "a" "INTEGER" []]⟩ rfl).2
  apply h
  intro kv hkv
  simp only [List.mem_singleton] at hkv
  subst hkv
  exact ⟨.mk "a" "INTEGER" [], "1", rfl, by simp [parseValue, jsToString]⟩

/-- C8: on a connected BigQuery driver, `insertData` against a missing table
logs the not-found line and returns null without throwing, and an insert
rejected by the remote (schema mismatch) logs the schema-altering line and
returns null rather than propagating the error. -/
theorem C8_insert_soft_failures (p d t e e2 : String) (ir : Except String String) :
    insertData (some ()) p d t (.error e) ir =
      ([.tableGet, .log ("table `" ++ p ++ "." ++ d ++ "." ++ t ++ "` not found")], .ok none) ∧
    insertData (some ()) p d t (.ok ()) (.error e2) =
      ([.tableGet, .tableInsert, .log "Schema-altering action"], .ok none) :=
  ⟨rfl, rfl⟩

/-- C9 (counterexample): BigQuery `testConnection` does not catch a rejected
probe query — a query-level failure propagates as a throw instead of being
reported as a structured result. -/
theorem C9_probe_throw_counterexample :
    bqTestConnection (some ()) (.error "probe failed") =
      (.error "probe failed" : Except String TestConnection) := rfl

/-- C9 (amended): `testConnection` returns the structured
`{ success, message }` shape on every non-throwing path; but BigQuery's
version throws when not connected and also re-throws a rejected probe query
(only a falsy resolved response yields the structured failure), while Xero's
version never throws at all — a null client or failing probe both yield the
structured failure result. -/
theorem C9_testConnection_behavior (e : String) (q : Except String (Option Unit))
    (pr : Except String Unit) :
    bqTestConnection none q = .error "Connection to BigQuery not established" ∧
    bqTestConnection (some ()) (.error e) = .error e ∧
    bqTestConnection (some ()) (.ok none) =
      .ok ⟨false, "Could not establish connection to BigQuery"⟩ ∧
    bqTestConnection (some ()) (.ok (some ())) =
      .ok ⟨true, "Connection established successfully"⟩ ∧
    xeroTestConnection none pr = .ok ⟨false, "Could not establish connection to Xero"⟩ ∧
    xeroTestConnection (some ()) (.error e) =
      .ok ⟨false, "Could not establish connection to Xero"⟩ ∧
    xeroTestConnection (some ()) (.ok ()) = .ok ⟨true, "Connection established successfully"⟩ :=
  ⟨rfl, rfl, rfl, rfl, rfl, rfl, rfl⟩

/-- C10: `XeroDriver.connect` with no config argument throws the `TypeError`
from reading `XERO_CLIENT_ID` off `undefined`, and with a config lacking the
`oauth2` field throws the `TypeError` from reading `redirectUri` off
`undefined` — in both cases with an empty event trace, so before any client
construction or network request, whatever constructor-bound credentials are
held. -/
theorem C10_xero_connect_requires_oauth2 (cid csec : String) (conns : List String)
    (oid osec : Option String) :
    xeroConnect cid csec none conns =
      ([], .error "TypeError: Cannot read properties of undefined (reading XERO_CLIENT_ID)") ∧
    xeroConnect cid csec (some ⟨oid, osec, none⟩) conns =
      ([], .error "TypeError: Cannot read properties of undefined (reading redirectUri)") :=
  ⟨rfl, rfl⟩
